import Mathlib

/-!
Shallow embedding of the playit-agent control core:
`packages/agent_core/src/agent_control/udp_channel.rs` (the `UdpChannel`
session manager) and `packages/agent_core/src/tunnel/setup.rs` (the
endpoint prober `SetupFindSuitableChannel::setup` and the registration
loop `ConnectedControl::authenticate`).

Machine integers (`u32` liveness counters, byte values) are modelled as
`Nat`; socket addresses as a structure with an address-family flag; byte
buffers as `List Nat`.  Async I/O is modelled by explicit state passing:
transmitted datagrams are returned as values, received datagrams are
supplied as inputs (an event script for the retry loops).
-/

/-- Model of `std::net::SocketAddr`: the address family (needed by the
prober, which picks retry budgets by family) plus opaque host/port. -/
structure SocketAddr where
  is_v6 : Bool
  host : Nat
  port : Nat
deriving DecidableEq, Repr

/-- `playit_agent_proto::control_messages::UdpChannelDetails`: the current
session parameters, `tunnel_addr` plus the opaque session `token`.
Equality is structural over both fields (`derive PartialEq` in Rust). -/
structure UdpChannelDetails where
  tunnel_addr : SocketAddr
  token : List Nat
deriving DecidableEq, Repr

/-- The interior state of `UdpChannel`: `ChannelDetails { udp, addr_history }`
together with the two atomic liveness counters `last_confirm` / `last_send`
(seconds, `u32`, modelled as `Nat`).  The `addr_history` deque is a list
with the FRONT (head) holding the newest entry. -/
structure ChannelState where
  udp : Option UdpChannelDetails
  addr_history : List SocketAddr
  last_confirm : Nat
  last_send : Nat
deriving DecidableEq, Repr

/-- `UdpChannel::new`: no details, empty history, both counters 0. -/
def fresh_channel : ChannelState :=
  { udp := none, addr_history := [], last_confirm := 0, last_send := 0 }

/-- `UdpChannel::invalidate_session`: stores 0 into both counters. -/
def invalidate_session (s : ChannelState) : ChannelState :=
  { s with last_confirm := 0, last_send := 0 }

/-- `UdpChannel::requires_resend`, with `now_sec()` passed explicitly:
`last_confirm + 10 < now`. -/
def requires_resend (s : ChannelState) (now : Nat) : Bool :=
  decide (s.last_confirm + 10 < now)

/-- `UdpChannel::requires_auth`: `last_confirm + 8 < last_send`. -/
def requires_auth (s : ChannelState) : Bool :=
  decide (s.last_confirm + 8 < s.last_send)

/-- A datagram handed to `PacketIO::send_to`: payload bytes and target. -/
structure SentPacket where
  data : List Nat
  target : SocketAddr
deriving DecidableEq, Repr

/-- `UdpChannel::set_udp_tunnel`, success path of the token send.  Returns
the new state and the list of datagrams transmitted by this call (empty
for the no-op branch, a single token datagram otherwise).  Mirrors the
source: equal details exit early; a differing `tunnel_addr` pushes the old
address to the deque front, popping the back when the length exceeds 5;
the details are replaced and `send_token` stores `now` into `last_send`. -/
def set_udp_tunnel (s : ChannelState) (details : UdpChannelDetails) (now : Nat) :
    ChannelState × List SentPacket :=
  match s.udp with
  | some current =>
    if details = current then
      (s, [])
    else
      let s1 :=
        if details.tunnel_addr ≠ current.tunnel_addr then
          let pushed := current.tunnel_addr :: s.addr_history
          { s with addr_history := if 5 < pushed.length then pushed.dropLast else pushed }
        else s
      ({ s1 with udp := some details, last_send := now },
       [{ data := details.token, target := details.tunnel_addr }])
  | none =>
      ({ s with udp := some details, last_send := now },
       [{ data := details.token, target := details.tunnel_addr }])

/-- A trace of `set_udp_tunnel` calls from a fresh channel (the value of
`now` is irrelevant to the details/history fields; 0 is passed). -/
def run_tunnel (ds : List UdpChannelDetails) : ChannelState :=
  ds.foldl (fun s d => (set_udp_tunnel s d 0).1) fresh_channel

/-- Modelled from the spec: the flow-footer codec (`UdpFlow` in the
external `udp_proto` module) is not among the sources.  The spec fixes
only its shape: a fixed-size footer at the TAIL of a datagram carrying
the flow 5-tuple, in an IPv4 and an IPv6 variant. -/
inductive UdpFlow where
  | V4 (src_ip src_port dst_ip dst_port : Nat)
  | V6 (src_ip src_port dst_ip dst_port : Nat)
deriving DecidableEq, Repr

/-- Modelled from the spec: a reserved 32-bit marker, placed where the
footer discriminant would sit, identifying a session-establish frame.
The numeric value is not fixed by the spec; an arbitrary 32-bit constant
distinct from the footer discriminants below is used. -/
def UDP_CHANNEL_ESTABLISH_ID : Nat := 0xd6280e51

/-- Modelled from the spec: the 32-bit discriminant of an IPv4-flow footer
(arbitrary value, distinct from the other markers). -/
def UDP_FLOW_V4_ID : Nat := 0x01f0f004

/-- Modelled from the spec: the 32-bit discriminant of an IPv6-flow footer
(arbitrary value, distinct from the other markers). -/
def UDP_FLOW_V6_ID : Nat := 0x01f0f006

/-- Big-endian byte encoding of `n` in exactly `k` bytes. -/
def natToBytes : Nat → Nat → List Nat
  | 0, _ => []
  | k + 1, n => natToBytes k (n / 256) ++ [n % 256]

/-- Big-endian byte decoding. -/
def bytesToNat (bs : List Nat) : Nat :=
  bs.foldl (fun acc b => acc * 256 + b) 0

/-- Modelled from the spec: `UdpFlow::len_v4`, the on-wire size of an
IPv4-flow footer (4+2 source, 4+2 destination, 4 discriminant). -/
def udpflow_len_v4 : Nat := 16

/-- Modelled from the spec: `UdpFlow::len_v6`, the on-wire size of an
IPv6-flow footer (16+2 source, 16+2 destination, 4 discriminant). -/
def udpflow_len_v6 : Nat := 40

/-- `UdpFlow::len()`: the on-wire size of this flow's footer. -/
def UdpFlow.len : UdpFlow → Nat
  | .V4 _ _ _ _ => udpflow_len_v4
  | .V6 _ _ _ _ => udpflow_len_v6

/-- Modelled from the spec: `UdpFlow::write_to`, the footer encoding
appended at the tail of a datagram (body fields then the discriminant). -/
def UdpFlow.encode : UdpFlow → List Nat
  | .V4 si sp di dp =>
      natToBytes 4 si ++ natToBytes 2 sp ++ natToBytes 4 di ++ natToBytes 2 dp ++
        natToBytes 4 UDP_FLOW_V4_ID
  | .V6 si sp di dp =>
      natToBytes 16 si ++ natToBytes 2 sp ++ natToBytes 16 di ++ natToBytes 2 dp ++
        natToBytes 4 UDP_FLOW_V6_ID

/-- Modelled from the spec: `UdpFlow::from_tail`.  Reads the trailing
32-bit discriminant; a known flow discriminant yields the decoded flow (a
too-short datagram is a hard parse error `error none`), any other
discriminant is reported back as `error (some id)` so the caller can
recognise the establish sentinel. -/
def udpflow_from_tail (data : List Nat) : Except (Option Nat) UdpFlow :=
  if data.length < 4 then .error none
  else
    let id := bytesToNat (data.drop (data.length - 4))
    if id = UDP_FLOW_V4_ID then
      if data.length < udpflow_len_v4 then .error none
      else
        let body := data.drop (data.length - udpflow_len_v4)
        .ok (.V4 (bytesToNat (body.take 4)) (bytesToNat ((body.drop 4).take 2))
                 (bytesToNat ((body.drop 6).take 4)) (bytesToNat ((body.drop 10).take 2)))
    else if id = UDP_FLOW_V6_ID then
      if data.length < udpflow_len_v6 then .error none
      else
        let body := data.drop (data.length - udpflow_len_v6)
        .ok (.V6 (bytesToNat (body.take 16)) (bytesToNat ((body.drop 16).take 2))
                 (bytesToNat ((body.drop 18).take 16)) (bytesToNat ((body.drop 34).take 2)))
    else .error (some id)

/-- `UdpTunnelRx`: the receive classification returned by `receive_from`. -/
inductive UdpTunnelRx where
  | ReceivedPacket (bytes : Nat) (flow : UdpFlow)
  | ConfirmedConnection
  | InvalidEstablishToken
deriving DecidableEq, Repr

/-- The `std::io::ErrorKind` values `receive_from` / `send` produce. -/
inductive RxError where
  | NotConnected
  | InvalidData
  | WriteZero
deriving DecidableEq, Repr

/-- `UdpChannel::receive_from`, with the received datagram supplied as
input: `payload` is the `bytes`-long prefix `recv_from` wrote into the
caller's buffer (so `bytes = payload.length`), `bufLen` the buffer's total
length, `remote` the datagram source, `now` the value of `now_sec()`.
Mirrors the source order: peer validation against `tunnel_addr` and the
history scan, the token-echo check (storing `last_confirm`), the
buffer-size sanity check, then footer extraction from the tail.  Errors
leave the state unchanged; the returned state accompanies `ok` results. -/
def receive_from (s : ChannelState) (bufLen : Nat) (payload : List Nat)
    (remote : SocketAddr) (now : Nat) : Except RxError (UdpTunnelRx × ChannelState) :=
  match s.udp with
  | none => .error .NotConnected
  | some details =>
    if details.tunnel_addr ≠ remote ∧ remote ∉ s.addr_history then
      .error .InvalidData
    else if payload = details.token then
      .ok (.ConfirmedConnection, { s with last_confirm := now })
    else if bufLen + max udpflow_len_v4 udpflow_len_v6 < payload.length then
      .error .WriteZero
    else
      match udpflow_from_tail payload with
      | .ok footer => .ok (.ReceivedPacket (payload.length - footer.len) footer, s)
      | .error (some f) =>
          if f = UDP_CHANNEL_ESTABLISH_ID then .ok (.InvalidEstablishToken, s)
          else .error .InvalidData
      | .error none => .error .InvalidData

/-- `UdpChannel::send`: with no details installed, fail `NotConnected`
before touching the buffer; otherwise append the flow footer to `data`
and transmit to `tunnel_addr`.  Returns the result (bytes sent and the
transmitted datagram), the final buffer contents and the final state. -/
def channel_send (s : ChannelState) (data : List Nat) (flow : UdpFlow) :
    Except RxError (Nat × SentPacket) × List Nat × ChannelState :=
  match s.udp with
  | none => (.error .NotConnected, data, s)
  | some details =>
      let newData := data ++ flow.encode
      (.ok (newData.length, { data := newData, target := details.tunnel_addr }),
       newData, s)

/-- `Pong{client_addr, tunnel_addr, ...}`: the prober's result payload. -/
structure Pong where
  client_addr : SocketAddr
  tunnel_addr : SocketAddr
deriving DecidableEq, Repr

/-- `ControlResponse` content variants relevant to the prober and the
registration loop; every remaining variant is collapsed into
`OtherResponse` (both loops treat them alike: log and continue). -/
inductive ControlResponse where
  | Pong (pong : Pong)
  | RequestQueued
  | AgentRegistered (info : Nat)
  | InvalidSignature
  | Unauthorized
  | OtherResponse
deriving DecidableEq, Repr

/-- `ControlFeed`: a parsed datagram is either a `Response` carrying a
`request_id` and content, or some other feed message. -/
inductive ControlFeed where
  | Response (request_id : Nat) (content : ControlResponse)
  | OtherFeed
deriving DecidableEq, Repr

/-- One outcome of a 500 ms `recv_from` window: timeout, socket error, or
a datagram from `remote` whose parse result is `parsed` (`none` models a
`ControlFeed::read_from` failure). -/
inductive RecvEvent where
  | Timeout
  | SockError
  | Packet (remote : SocketAddr) (parsed : Option ControlFeed)
deriving DecidableEq, Repr

/-- The `SetupError` variants the modelled control flow can produce. -/
inductive SetupError where
  | FailedToConnect
  | RegisterInvalidSignature
  | RegisterUnauthorized
deriving DecidableEq, Repr

/-- Result of `ConnectedControl::authenticate`. -/
inductive AuthOutcome where
  | Registered (info : Nat)
  | Failed (e : SetupError)
deriving DecidableEq, Repr

/-- Outcome of the inner receive loop of `authenticate`: either a terminal
result (returned through all loops) or fall through to the next outer
round. -/
inductive InnerStep where
  | Terminal (r : AuthOutcome)
  | NextRound
deriving DecidableEq, Repr

/-- The inner `for _ in 0..5` receive loop of `ConnectedControl::authenticate`,
consuming up to `w` events from the stream (an exhausted stream behaves as
a timeout).  Off-address datagrams, parse failures, non-`Response` feeds,
responses with `request_id ≠ 10` and unexpected contents consume an
iteration and continue; `RequestQueued`, socket errors and timeouts break
to the next outer round; `AgentRegistered`, `InvalidSignature` and
`Unauthorized` are terminal. -/
def auth_inner (ctrl : SocketAddr) : List RecvEvent → Nat → InnerStep × List RecvEvent
  | es, 0 => (.NextRound, es)
  | [], _ + 1 => (.NextRound, [])
  | e :: es, w + 1 =>
    match e with
    | .Timeout => (.NextRound, es)
    | .SockError => (.NextRound, es)
    | .Packet remote parsed =>
      if remote ≠ ctrl then auth_inner ctrl es w
      else
        match parsed with
        | none => auth_inner ctrl es w
        | some .OtherFeed => auth_inner ctrl es w
        | some (.Response rid content) =>
          if rid ≠ 10 then auth_inner ctrl es w
          else
            match content with
            | .RequestQueued => (.NextRound, es)
            | .AgentRegistered info => (.Terminal (.Registered info), es)
            | .InvalidSignature => (.Terminal (.Failed .RegisterInvalidSignature), es)
            | .Unauthorized => (.Terminal (.Failed .RegisterUnauthorized), es)
            | _ => auth_inner ctrl es w

/-- The outer `for _ in 0..5` send loop of `ConnectedControl::authenticate`:
each round sends the registration blob (send assumed to succeed) and runs
the inner receive loop with budget 5; when all rounds exhaust without a
terminal outcome the result is `FailedToConnect`. -/
def auth_rounds (ctrl : SocketAddr) : List RecvEvent → Nat → AuthOutcome
  | _, 0 => .Failed .FailedToConnect
  | es, r + 1 =>
    match auth_inner ctrl es 5 with
    | (.Terminal out, _) => out
    | (.NextRound, rest) => auth_rounds ctrl rest r

/-- `ConnectedControl::authenticate` after a successful hex decode of the
signed key: 5 outer rounds against the event stream. -/
def authenticate (ctrl : SocketAddr) (events : List RecvEvent) : AuthOutcome :=
  auth_rounds ctrl events 5

/-- An event that makes the registration loop terminate: a well-addressed
`request_id = 10` response with `AgentRegistered`, `InvalidSignature` or
`Unauthorized` content. -/
def is_terminal_event (ctrl : SocketAddr) : RecvEvent → Bool
  | .Packet remote (some (.Response rid content)) =>
    if remote = ctrl ∧ rid = 10 then
      match content with
      | .AgentRegistered _ => true
      | .InvalidSignature => true
      | .Unauthorized => true
      | _ => false
    else false
  | _ => false

/-- `let attempts = if is_ip6 { 1 } else { 3 }` in
`SetupFindSuitableChannel::setup`. -/
def attempts_for (is_ip6 : Bool) : Nat := if is_ip6 then 1 else 3

/-- `let waits = if is_ip6 { 3 } else { 5 }` in
`SetupFindSuitableChannel::setup`. -/
def waits_for (is_ip6 : Bool) : Nat := if is_ip6 then 3 else 5

/-- The inner `for i in 0..waits` receive loop of the prober: every
outcome other than a well-addressed `Response{request_id = 1, Pong}`
(timeouts, socket errors, off-address datagrams, parse failures, other
feeds or contents) consumes one wait window and the loop continues. -/
def probe_waits (addr : SocketAddr) : List RecvEvent → Nat → Option Pong × List RecvEvent
  | es, 0 => (none, es)
  | [], _ + 1 => (none, [])
  | e :: es, w + 1 =>
    match e with
    | .Timeout => probe_waits addr es w
    | .SockError => probe_waits addr es w
    | .Packet remote parsed =>
      if remote ≠ addr then probe_waits addr es w
      else
        match parsed with
        | none => probe_waits addr es w
        | some .OtherFeed => probe_waits addr es w
        | some (.Response rid content) =>
          if rid ≠ 1 then probe_waits addr es w
          else
            match content with
            | .Pong p => (some p, es)
            | _ => probe_waits addr es w

/-- The `for _ in 0..attempts` loop of the prober on one candidate:
each attempt serialises and sends a ping (outcome taken from the
`sends` script, one entry per attempt, an exhausted script meaning
success) and, when the send succeeded, runs `waits` receive windows.
A FAILED send breaks out of the attempts loop, abandoning the whole
candidate. -/
def probe_attempts (addr : SocketAddr) (waits : Nat) :
    List Bool → List RecvEvent → Nat → Option Pong
  | _, _, 0 => none
  | sends, es, a + 1 =>
    if sends.headD true = false then none
    else
      match probe_waits addr es waits with
      | (some p, _) => some p
      | (none, rest) => probe_attempts addr waits sends.tail rest a

/-- Per-candidate environment: whether the socket bind succeeds, the send
outcomes (one per attempt) and the receive-event script. -/
structure CandidateEnv where
  bind_ok : Bool
  send_results : List Bool
  recv_events : List RecvEvent
deriving DecidableEq, Repr

/-- `SetupFindSuitableChannel::setup`: iterate the candidates in order
(a bind failure skips the candidate), run the attempts loop with the
family-dependent budgets, and return the first candidate that yields a
pong; `FailedToConnect` when all candidates exhaust. -/
def setup_run : List (SocketAddr × CandidateEnv) → Except SetupError (SocketAddr × Pong)
  | [] => .error .FailedToConnect
  | (addr, env) :: rest =>
    if env.bind_ok = false then setup_run rest
    else
      match probe_attempts addr (waits_for addr.is_v6) env.send_results env.recv_events
          (attempts_for addr.is_v6) with
      | some p => .ok (addr, p)
      | none => setup_run rest

/-- Sample addresses and details for concrete witnesses. -/
def addrA : SocketAddr := { is_v6 := false, host := 1, port := 1 }

def addrB : SocketAddr := { is_v6 := false, host := 2, port := 2 }

def addrC : SocketAddr := { is_v6 := false, host := 3, port := 3 }

def detA : UdpChannelDetails := { tunnel_addr := addrA, token := [9, 9, 9, 9, 9] }

/-- A channel state holding `detA` with `addrB` in the history. -/
def stateA : ChannelState :=
  { udp := some detA, addr_history := [addrB], last_confirm := 0, last_send := 0 }

/-- A 7-call trace of distinct tunnel addresses. -/
def ds7 : List UdpChannelDetails :=
  [{ tunnel_addr := { is_v6 := false, host := 1, port := 1 }, token := [1] },
   { tunnel_addr := { is_v6 := false, host := 2, port := 2 }, token := [1] },
   { tunnel_addr := { is_v6 := false, host := 3, port := 3 }, token := [1] },
   { tunnel_addr := { is_v6 := false, host := 4, port := 4 }, token := [1] },
   { tunnel_addr := { is_v6 := false, host := 5, port := 5 }, token := [1] },
   { tunnel_addr := { is_v6 := false, host := 6, port := 6 }, token := [1] },
   { tunnel_addr := { is_v6 := false, host := 7, port := 7 }, token := [1] }]

/-- Claim C10: with no session details installed, `send` fails
`NotConnected` and leaves the data buffer, the state (details, history,
`last_send`, `last_confirm`) completely unchanged. -/
theorem send_not_connected (s : ChannelState) (data : List Nat) (flow : UdpFlow)
    (h : s.udp = none) :
    channel_send s data flow = (.error .NotConnected, data, s) := by
  simp only [channel_send, h]

/-- Witness for `send_not_connected` at a fresh channel. -/
theorem send_not_connected_witness :
    fresh_channel.udp = none ∧
    channel_send fresh_channel [1, 2, 3] (.V4 1 2 3 4) =
      (.error .NotConnected, [1, 2, 3], fresh_channel) :=
  ⟨rfl, send_not_connected fresh_channel [1, 2, 3] (.V4 1 2 3 4) rfl⟩

/-- Counterexample to claim C2 as stated: immediately after
`invalidate_session` (no confirmation in between), `requires_auth`
returns `false`, not `true`: both counters are 0 and `0 + 8 < 0` fails. -/
theorem invalidate_session_auth_cex :
    requires_auth (invalidate_session
      { udp := none, addr_history := [], last_confirm := 50, last_send := 60 }) = false := by
  decide

/-- Claim C2 (amended): `invalidate_session` resets both timestamps to 0;
while `last_confirm` remains 0, `requires_resend` returns `true` for any
`now > 10`; while `last_send` remains 0, `requires_auth` returns `false`
(it becomes `true` only after a subsequent send). -/
theorem invalidate_session_effects :
    (∀ s : ChannelState, (invalidate_session s).last_confirm = 0 ∧
        (invalidate_session s).last_send = 0) ∧
    (∀ (s : ChannelState) (now : Nat), s.last_confirm = 0 → 10 < now →
        requires_resend s now = true) ∧
    (∀ s : ChannelState, s.last_send = 0 → requires_auth s = false) := by
  refine ⟨fun s => ⟨rfl, rfl⟩, fun s now h1 h2 => ?_, fun s h => ?_⟩
  · simp [requires_resend, h1]; omega
  · simp [requires_auth, h]

/-- Witness for `invalidate_session_effects` at a concrete state. -/
theorem invalidate_session_effects_witness :
    (invalidate_session
        { udp := none, addr_history := [], last_confirm := 50, last_send := 60 }).last_confirm = 0 ∧
    requires_resend (invalidate_session
        { udp := none, addr_history := [], last_confirm := 50, last_send := 60 }) 11 = true ∧
    requires_auth (invalidate_session
        { udp := none, addr_history := [], last_confirm := 50, last_send := 60 }) = false :=
  ⟨(invalidate_session_effects.1 _).1,
   invalidate_session_effects.2.1 _ 11 rfl (by decide),
   invalidate_session_effects.2.2 _ rfl⟩

/-- Counterexample to claim C7 as stated: at `last_confirm = 0`,
`last_send = 10`, `now = 10` the claim's hypotheses hold
(`last_send ≥ last_confirm + 10` and `last_send ≤ now`), `requires_auth`
is `true`, yet `requires_resend` is `false` (`0 + 10 < 10` fails). -/
theorem requires_auth_resend_cex :
    (10 : Nat) ≥ 0 + 10 ∧ (10 : Nat) ≤ 10 ∧
    requires_auth { udp := none, addr_history := [], last_confirm := 0, last_send := 10 } = true ∧
    requires_resend { udp := none, addr_history := [], last_confirm := 0, last_send := 10 } 10
      = false := by
  decide

/-- Claim C7 (amended): whenever `last_send ≥ last_confirm + 10` and the
send is timestamped STRICTLY in the past (`last_send < now`),
`requires_auth` implies `requires_resend`. -/
theorem requires_auth_implies_resend (s : ChannelState) (now : Nat)
    (h1 : s.last_confirm + 10 ≤ s.last_send) (h2 : s.last_send < now)
    (_h3 : requires_auth s = true) : requires_resend s now = true := by
  simp only [requires_resend, decide_eq_true_eq]
  omega

/-- Witness for `requires_auth_implies_resend` at a concrete state. -/
theorem requires_auth_implies_resend_witness :
    requires_resend { udp := none, addr_history := [], last_confirm := 0, last_send := 10 } 11
      = true :=
  requires_auth_implies_resend
    { udp := none, addr_history := [], last_confirm := 0, last_send := 10 } 11
    (by decide) (by decide) (by decide)

/-- Counterexample to claim C1 as stated: details installed, accepted
source, payload `[1,2,3,4]` is not the token, and the buffer (length 4)
IS smaller than the payload length plus the larger flow-footer size
(`4 < 4 + 40`), yet `receive_from` does not fail `WriteZero` (it reaches
footer extraction and fails `InvalidData`): the code's guard is
`buffer.len() + max_footer < bytes`, not `buffer.len() < bytes + max_footer`. -/
theorem receive_write_zero_cex :
    (4 : Nat) < 4 + max udpflow_len_v4 udpflow_len_v6 ∧
    ([1, 2, 3, 4] : List Nat) ≠ detA.token ∧
    receive_from stateA 4 [1, 2, 3, 4] addrA 100 = .error .InvalidData ∧
    RxError.InvalidData ≠ RxError.WriteZero := by
  exact ⟨by decide, by decide, by rfl, by decide⟩

/-- Claim C1 (amended): with details installed and an accepted source,
when the received payload length exceeds the buffer length plus the
larger of the two flow-footer sizes (and the payload is not the token
echo), `receive_from` fails `WriteZero` ("receive buffer too small"). -/
theorem receive_write_zero (s : ChannelState) (det : UdpChannelDetails)
    (bufLen : Nat) (payload : List Nat) (remote : SocketAddr) (now : Nat)
    (hdet : s.udp = some det)
    (hsrc : det.tunnel_addr = remote ∨ remote ∈ s.addr_history)
    (htok : payload ≠ det.token)
    (hlen : bufLen + max udpflow_len_v4 udpflow_len_v6 < payload.length) :
    receive_from s bufLen payload remote now = .error .WriteZero := by
  have hcond : ¬(det.tunnel_addr ≠ remote ∧ remote ∉ s.addr_history) := by
    rintro ⟨h1, h2⟩
    rcases hsrc with h | h
    · exact h1 h
    · exact h2 h
  simp only [receive_from, hdet]
  rw [if_neg hcond, if_neg htok, if_pos hlen]

/-- Witness for `receive_write_zero`: a 45-byte payload against a 4-byte
buffer. -/
theorem receive_write_zero_witness :
    receive_from stateA 4 (List.replicate 45 7) addrA 100 = .error .WriteZero :=
  receive_write_zero stateA detA 4 (List.replicate 45 7) addrA 100 rfl
    (Or.inl (by decide)) (by decide) (by decide)

/-- Claim C4: with details installed, `receive_from` yields a non-error
classification only if the source is the current `tunnel_addr` or an
element of `addr_history`; any other source fails `InvalidData` ("got
data from other source"). -/
theorem receive_source_check (s : ChannelState) (det : UdpChannelDetails)
    (bufLen : Nat) (payload : List Nat) (remote : SocketAddr) (now : Nat)
    (hdet : s.udp = some det) :
    (remote ≠ det.tunnel_addr ∧ remote ∉ s.addr_history →
        receive_from s bufLen payload remote now = .error .InvalidData) ∧
    (∀ rx s', receive_from s bufLen payload remote now = .ok (rx, s') →
        remote = det.tunnel_addr ∨ remote ∈ s.addr_history) := by
  constructor
  · rintro ⟨h1, h2⟩
    simp only [receive_from, hdet]
    rw [if_pos ⟨fun he => h1 he.symm, h2⟩]
  · intro rx s' hok
    by_cases hsrc : remote = det.tunnel_addr ∨ remote ∈ s.addr_history
    · exact hsrc
    · push_neg at hsrc
      exfalso
      simp only [receive_from, hdet] at hok
      rw [if_pos ⟨fun he => hsrc.1 he.symm, hsrc.2⟩] at hok
      exact Except.noConfusion hok

/-- Witness for `receive_source_check`: a datagram from `addrC` (neither
current nor in history) is rejected with `InvalidData`. -/
theorem receive_source_check_witness :
    receive_from stateA 64 [1, 2, 3, 4] addrC 100 = .error .InvalidData :=
  (receive_source_check stateA detA 64 [1, 2, 3, 4] addrC 100 rfl).1 (by decide)

/-- Claim C6: a payload byte-equal to the session token, from any
accepted peer (current address or history entry), stores `now` into
`last_confirm` and classifies as `ConfirmedConnection`. -/
theorem receive_token_confirms (s : ChannelState) (det : UdpChannelDetails)
    (bufLen : Nat) (remote : SocketAddr) (now : Nat)
    (hdet : s.udp = some det)
    (hsrc : det.tunnel_addr = remote ∨ remote ∈ s.addr_history) :
    receive_from s bufLen det.token remote now =
      .ok (.ConfirmedConnection, { s with last_confirm := now }) := by
  have hcond : ¬(det.tunnel_addr ≠ remote ∧ remote ∉ s.addr_history) := by
    rintro ⟨h1, h2⟩
    rcases hsrc with h | h
    · exact h1 h
    · exact h2 h
  simp only [receive_from, hdet]
  rw [if_neg hcond]
  simp

/-- Witness for `receive_token_confirms`: the token echo arriving from
the history entry `addrB` confirms the session. -/
theorem receive_token_confirms_witness :
    receive_from stateA 64 detA.token addrB 42 =
      .ok (.ConfirmedConnection,
        { udp := some detA, addr_history := [addrB], last_confirm := 42, last_send := 0 }) :=
  receive_token_confirms stateA detA 64 addrB 42 rfl (Or.inr (by decide))

/-- Re-setting the currently installed details is a no-op that sends
nothing (`set_udp_tunnel` exits before `send_token`). -/
theorem set_udp_tunnel_noop (t : ChannelState) (d : UdpChannelDetails) (now : Nat)
    (h : t.udp = some d) : set_udp_tunnel t d now = (t, []) := by
  simp [set_udp_tunnel, h]

/-- After any `set_udp_tunnel` call the installed details are the given
ones (the no-op branch only fires when they already are). -/
theorem set_udp_tunnel_udp (s : ChannelState) (d : UdpChannelDetails) (now : Nat) :
    (set_udp_tunnel s d now).1.udp = some d := by
  cases hu : s.udp with
  | none => simp [set_udp_tunnel, hu]
  | some current =>
    by_cases he : d = current
    · simp [set_udp_tunnel, hu, he]
    · simp [set_udp_tunnel, hu, he]

/-- Claim C5: `set_udp_tunnel` is idempotent on equal input.  Installing
details `d` not currently held and then calling `set_udp_tunnel d` again
transmits the token exactly once across the two calls: the first call
sends the single token datagram, the second sends nothing and leaves the
whole state (details, history, `last_send`, `last_confirm`) unchanged. -/
theorem set_udp_tunnel_idempotent (s : ChannelState) (d : UdpChannelDetails)
    (now1 now2 : Nat) (h : s.udp ≠ some d) :
    (set_udp_tunnel s d now1).2 = [{ data := d.token, target := d.tunnel_addr }] ∧
    (set_udp_tunnel (set_udp_tunnel s d now1).1 d now2).2 = [] ∧
    (set_udp_tunnel (set_udp_tunnel s d now1).1 d now2).1 = (set_udp_tunnel s d now1).1 ∧
    ((set_udp_tunnel s d now1).2 ++
        (set_udp_tunnel (set_udp_tunnel s d now1).1 d now2).2).length = 1 := by
  have h1snd : (set_udp_tunnel s d now1).2 =
      [{ data := d.token, target := d.tunnel_addr }] := by
    cases hu : s.udp with
    | none => simp [set_udp_tunnel, hu]
    | some current =>
      have hne : ¬(d = current) := fun he => h (by rw [hu, he])
      simp [set_udp_tunnel, hu, hne]
  have h2 : set_udp_tunnel (set_udp_tunnel s d now1).1 d now2 =
      ((set_udp_tunnel s d now1).1, []) :=
    set_udp_tunnel_noop _ d now2 (set_udp_tunnel_udp s d now1)
  refine ⟨h1snd, by rw [h2], by rw [h2], by rw [h1snd, h2]; rfl⟩

/-- Appending one call to a `set_udp_tunnel` trace. -/
theorem run_tunnel_append (ds : List UdpChannelDetails) (d : UdpChannelDetails) :
    run_tunnel (ds ++ [d]) = (set_udp_tunnel (run_tunnel ds) d 0).1 := by
  simp [run_tunnel, List.foldl_append]

/-- The details installed by a trace are the last ones set. -/
theorem run_tunnel_udp (ds : List UdpChannelDetails) :
    (run_tunnel ds).udp = ds.getLast? := by
  induction ds using List.reverseRecOn with
  | nil => rfl
  | append_singleton ds d _ =>
    rw [run_tunnel_append, set_udp_tunnel_udp, List.getLast?_concat]

/-- Pushing one address onto a 5-truncated history and trimming back to 5
(the deque `push_front` / `pop_back` step) equals truncating the pushed
list at 5. -/
theorem push_trim_take {α : Type} (a : α) (L : List α) :
    (if 5 < (a :: L.take 5).length then (a :: L.take 5).dropLast else a :: L.take 5) =
      (a :: L).take 5 := by
  by_cases h : 5 ≤ L.length
  · have hlen : (L.take 5).length = 5 := by rw [List.length_take]; omega
    have hne : L.take 5 ≠ [] := by
      intro he
      rw [he] at hlen
      simp at hlen
    rw [if_pos (by rw [List.length_cons, hlen]; omega),
      List.dropLast_cons_of_ne_nil hne, List.dropLast_eq_take, hlen]
    show a :: (L.take 5).take (5 - 1) = a :: L.take 4
    rw [List.take_take]
    norm_num
  · have h1 : L.take 5 = L := List.take_of_length_le (by omega)
    have h4 : L.take 4 = L := List.take_of_length_le (by omega)
    rw [h1, if_neg (by rw [List.length_cons]; omega)]
    show a :: L = a :: L.take 4
    rw [h4]

/-- History characterization: after a trace of `set_udp_tunnel` calls
with pairwise distinct tunnel addresses from a fresh channel, the address
history is the reverse-chronological list of all but the last installed
address, truncated to length 5. -/
theorem run_tunnel_history (ds : List UdpChannelDetails)
    (hd : (ds.map (fun d => d.tunnel_addr)).Pairwise (· ≠ ·)) :
    (run_tunnel ds).addr_history =
      ((ds.map (fun d => d.tunnel_addr)).dropLast).reverse.take 5 := by
  induction ds using List.reverseRecOn with
  | nil => rfl
  | append_singleton ds d ih =>
    rw [List.map_append] at hd
    obtain ⟨hd1, -, hsep⟩ := List.pairwise_append.mp hd
    have ih' := ih hd1
    rw [run_tunnel_append]
    simp only [List.map_append, List.map_cons, List.map_nil, List.dropLast_concat]
    cases hlast : ds.getLast? with
    | none =>
      have he : ds = [] := List.getLast?_eq_none_iff.mp hlast
      subst he
      rfl
    | some c =>
      have hudp : (run_tunnel ds).udp = some c := by rw [run_tunnel_udp, hlast]
      have hmm : c ∈ ds.getLast? := Option.mem_def.mpr hlast
      have hdecomp := List.dropLast_append_getLast? c hmm
      have hcmem : c ∈ ds := by rw [← hdecomp]; simp
      have haddr : c.tunnel_addr ≠ d.tunnel_addr :=
        hsep _ (List.mem_map_of_mem _ hcmem) _ (by simp)
      have hdc : ¬(d = c) := fun he => haddr (by rw [he])
      obtain ⟨E, hE⟩ : ∃ E, ds = E ++ [c] := ⟨ds.dropLast, hdecomp.symm⟩
      rw [hE] at ih'
      simp only [List.map_append, List.map_cons, List.map_nil,
        List.dropLast_concat] at ih'
      rw [hE] at hudp ⊢
      simp only [List.map_append, List.map_cons, List.map_nil, List.reverse_append,
        List.reverse_cons, List.reverse_nil, List.nil_append, List.singleton_append]
      simp only [set_udp_tunnel, hudp]
      rw [if_neg hdc,
        if_pos (show d.tunnel_addr ≠ c.tunnel_addr from fun he => haddr he.symm)]
      rw [ih']
      exact push_trim_take c.tunnel_addr (E.map (fun x => x.tunnel_addr)).reverse

/-- Claim C3: for every sequence of `set_udp_tunnel` calls with distinct
`tunnel_addr` values from a fresh channel, the history length never
exceeds 5, the history is the newest-first list of replaced addresses
(truncated to 5, oldest evicted), and the currently installed
`tunnel_addr` never appears in the history. -/
theorem set_udp_tunnel_history_invariant (ds : List UdpChannelDetails)
    (hd : (ds.map (fun d => d.tunnel_addr)).Pairwise (· ≠ ·)) :
    (run_tunnel ds).addr_history.length ≤ 5 ∧
    (run_tunnel ds).addr_history =
      ((ds.map (fun d => d.tunnel_addr)).dropLast).reverse.take 5 ∧
    ∀ cur, (run_tunnel ds).udp = some cur →
      cur.tunnel_addr ∉ (run_tunnel ds).addr_history := by
  have hchar := run_tunnel_history ds hd
  refine ⟨by rw [hchar]; exact List.length_take_le .., hchar, ?_⟩
  intro cur hcur hmem
  rw [run_tunnel_udp] at hcur
  obtain ⟨E, hE⟩ : ∃ E, ds = E ++ [cur] :=
    ⟨ds.dropLast, (List.dropLast_append_getLast? cur (Option.mem_def.mpr hcur)).symm⟩
  rw [hchar, hE] at hmem
  simp only [List.map_append, List.map_cons, List.map_nil,
    List.dropLast_concat] at hmem
  have hmem2 : cur.tunnel_addr ∈ E.map (fun d => d.tunnel_addr) :=
    List.mem_reverse.mp (List.mem_of_mem_take hmem)
  rw [hE] at hd
  simp only [List.map_append, List.map_cons, List.map_nil] at hd
  obtain ⟨-, -, hsep⟩ := List.pairwise_append.mp hd
  exact hsep _ hmem2 _ (by simp) rfl

/-- Witness for `set_udp_tunnel_history_invariant` on a 7-address trace. -/
theorem set_udp_tunnel_history_invariant_witness :
    (run_tunnel ds7).addr_history.length ≤ 5 ∧
    (run_tunnel ds7).addr_history =
      ((ds7.map (fun d => d.tunnel_addr)).dropLast).reverse.take 5 ∧
    ∀ cur, (run_tunnel ds7).udp = some cur →
      cur.tunnel_addr ∉ (run_tunnel ds7).addr_history :=
  set_udp_tunnel_history_invariant ds7 (by decide)

/-- Witness for `set_udp_tunnel_idempotent` from a fresh channel. -/
theorem set_udp_tunnel_idempotent_witness :
    (set_udp_tunnel fresh_channel detA 5).2 =
      [{ data := detA.token, target := detA.tunnel_addr }] ∧
    (set_udp_tunnel (set_udp_tunnel fresh_channel detA 5).1 detA 7).2 = [] ∧
    (set_udp_tunnel (set_udp_tunnel fresh_channel detA 5).1 detA 7).1 =
      (set_udp_tunnel fresh_channel detA 5).1 ∧
    ((set_udp_tunnel fresh_channel detA 5).2 ++
        (set_udp_tunnel (set_udp_tunnel fresh_channel detA 5).1 detA 7).2).length = 1 :=
  set_udp_tunnel_idempotent fresh_channel detA 5 7 (by decide)

/-- On a stream with no terminal `request_id = 10` response, the inner
receive loop always falls through to the next round, leaving a suffix of
the stream that is again free of terminal responses. -/
theorem auth_inner_nonterminal (ctrl : SocketAddr) :
    ∀ (w : Nat) (es : List RecvEvent), (∀ e ∈ es, is_terminal_event ctrl e = false) →
      ∃ es', auth_inner ctrl es w = (.NextRound, es') ∧
        ∀ e ∈ es', is_terminal_event ctrl e = false := by
  intro w
  induction w with
  | zero =>
    intro es h
    exact ⟨es, by simp [auth_inner], h⟩
  | succ w ih =>
    intro es h
    cases es with
    | nil => exact ⟨[], by simp [auth_inner], by simp⟩
    | cons e es =>
      have hes : ∀ x ∈ es, is_terminal_event ctrl x = false :=
        fun x hx => h x (List.mem_cons_of_mem _ hx)
      have he : is_terminal_event ctrl e = false := h e (List.mem_cons_self _ _)
      cases e with
      | Timeout => exact ⟨es, by simp [auth_inner], hes⟩
      | SockError => exact ⟨es, by simp [auth_inner], hes⟩
      | Packet remote parsed =>
        by_cases hr : remote = ctrl
        · cases parsed with
          | none => simpa [auth_inner, hr] using ih es hes
          | some f =>
            cases f with
            | OtherFeed => simpa [auth_inner, hr] using ih es hes
            | Response rid content =>
              by_cases hrid : rid = 10
              · cases content with
                | Pong p => simpa [auth_inner, hr, hrid] using ih es hes
                | RequestQueued => exact ⟨es, by simp [auth_inner, hr, hrid], hes⟩
                | AgentRegistered info => simp [is_terminal_event, hr, hrid] at he
                | InvalidSignature => simp [is_terminal_event, hr, hrid] at he
                | Unauthorized => simp [is_terminal_event, hr, hrid] at he
                | OtherResponse => simpa [auth_inner, hr, hrid] using ih es hes
              · simpa [auth_inner, hr, hrid] using ih es hes
        · simpa [auth_inner, hr] using ih es hes

/-- On a stream with no terminal response the outer loop exhausts its
rounds and fails `FailedToConnect`. -/
theorem auth_rounds_nonterminal (ctrl : SocketAddr) :
    ∀ (r : Nat) (es : List RecvEvent), (∀ e ∈ es, is_terminal_event ctrl e = false) →
      auth_rounds ctrl es r = .Failed .FailedToConnect := by
  intro r
  induction r with
  | zero => intro es _; rfl
  | succ r ih =>
    intro es h
    obtain ⟨es', heq, h'⟩ := auth_inner_nonterminal ctrl 5 es h
    rw [auth_rounds, heq]
    exact ih es' h'

/-- Claim C8: in `ConnectedControl::authenticate`, a `request_id = 10`
response with `InvalidSignature` or `Unauthorized` content terminates
immediately with `RegisterInvalidSignature` / `RegisterUnauthorized` (no
further rounds are attempted, whatever the remaining round budget and
event stream), and when all 5 outer send rounds complete without an
`AgentRegistered` (or other terminal) response the result is the
`FailedToConnect` error. -/
theorem authenticate_terminal_and_exhaustion (ctrl : SocketAddr) :
    (∀ (rest : List RecvEvent) (r : Nat),
        auth_rounds ctrl (.Packet ctrl (some (.Response 10 .InvalidSignature)) :: rest)
          (r + 1) = .Failed .RegisterInvalidSignature) ∧
    (∀ (rest : List RecvEvent) (r : Nat),
        auth_rounds ctrl (.Packet ctrl (some (.Response 10 .Unauthorized)) :: rest)
          (r + 1) = .Failed .RegisterUnauthorized) ∧
    (∀ events : List RecvEvent, (∀ e ∈ events, is_terminal_event ctrl e = false) →
        authenticate ctrl events = .Failed .FailedToConnect) := by
  refine ⟨fun rest r => ?_, fun rest r => ?_,
    fun events h => auth_rounds_nonterminal ctrl 5 events h⟩
  · rw [auth_rounds]
    simp [auth_inner]
  · rw [auth_rounds]
    simp [auth_inner]

/-- Witness for `authenticate_terminal_and_exhaustion` at a concrete
control address and event streams (the third stream holds only timeouts,
a socket error and an off-address terminal response, so all 5 rounds
exhaust). -/
theorem authenticate_terminal_and_exhaustion_witness :
    auth_rounds addrA [.Packet addrA (some (.Response 10 .InvalidSignature))] 5 =
      .Failed .RegisterInvalidSignature ∧
    auth_rounds addrA [.Packet addrA (some (.Response 10 .Unauthorized))] 5 =
      .Failed .RegisterUnauthorized ∧
    authenticate addrA [.Timeout, .SockError,
        .Packet addrB (some (.Response 10 .Unauthorized))] = .Failed .FailedToConnect :=
  ⟨(authenticate_terminal_and_exhaustion addrA).1 [] 4,
   (authenticate_terminal_and_exhaustion addrA).2.1 [] 4,
   (authenticate_terminal_and_exhaustion addrA).2.2 _ (by decide)⟩

/-- Claim C9: the prober's per-candidate retry budget is 1 attempt for
IPv6 and 3 for IPv4, with 3 receive windows per attempt for IPv6 and 5
for IPv4; and a failed ping send abandons the whole candidate — the
attempts loop yields nothing no matter how many attempts remain or what
the receive script holds, and `setup` moves on to the next candidate. -/
theorem setup_budget_and_send_abandon :
    (attempts_for true = 1 ∧ attempts_for false = 3 ∧
     waits_for true = 3 ∧ waits_for false = 5) ∧
    (∀ (addr : SocketAddr) (env : CandidateEnv) (rest : List (SocketAddr × CandidateEnv)),
      env.send_results.headD true = false →
      (∀ (es : List RecvEvent) (a : Nat),
          probe_attempts addr (waits_for addr.is_v6) env.send_results es (a + 1) = none) ∧
      (env.bind_ok = true → setup_run ((addr, env) :: rest) = setup_run rest)) := by
  refine ⟨⟨rfl, rfl, rfl, rfl⟩, fun addr env rest hsend => ⟨fun es a => ?_, fun hbind => ?_⟩⟩
  · rw [probe_attempts, if_pos hsend]
  · have hnone : probe_attempts addr (waits_for addr.is_v6) env.send_results
        env.recv_events (attempts_for addr.is_v6) = none := by
      cases h6 : addr.is_v6 with
      | false =>
        rw [show attempts_for false = 2 + 1 from rfl, probe_attempts, if_pos hsend]
      | true =>
        rw [show attempts_for true = 0 + 1 from rfl, probe_attempts, if_pos hsend]
    rw [setup_run, if_neg (by simp [hbind]), hnone]

/-- Witness for `setup_budget_and_send_abandon`: a candidate whose first
send fails is abandoned even though its receive script holds a valid
pong, and the whole setup fails when it is the only candidate. -/
theorem setup_budget_and_send_abandon_witness :
    probe_attempts addrA (waits_for addrA.is_v6) [false]
      [.Packet addrA (some (.Response 1 (.Pong { client_addr := addrB, tunnel_addr := addrA })))]
      3 = none ∧
    setup_run [(addrA,
      { bind_ok := true, send_results := [false],
        recv_events :=
          [.Packet addrA (some (.Response 1 (.Pong { client_addr := addrB, tunnel_addr := addrA })))] })] =
      .error .FailedToConnect := by
  have h := setup_budget_and_send_abandon.2 addrA
    { bind_ok := true, send_results := [false],
      recv_events :=
        [.Packet addrA (some (.Response 1 (.Pong { client_addr := addrB, tunnel_addr := addrA })))] }
    [] (by decide)
  exact ⟨h.1 _ 2, by rw [h.2 rfl]; rfl⟩
